import Mathlib

/-!
Verification of the gotest library (package gotest): a shallow embedding of
StubReporter, the ErrorsNotFatal wrapper, RunCommand, and the Cmd run/check
engine, together with proofs of the specified properties.

Conventions of the embedding:
* Reporter methods that take variadic arguments plus fmt-style formatting
  (Log, Logf, Error, ...) are modelled as taking the already-formatted text:
  Log takes the space-joined argument text (fmt.Fprintln then appends the
  newline itself, which the model performs), Logf takes the fmt.Sprintf
  result.  String formatting itself is an external collaborator.
* Calls made by a function under test to its Reporter are recorded as a
  trace (List Ev) in program order; applying a trace to a StubReporter
  replays it through the StubReporter methods.
* Process execution is an external collaborator: Cmd.Run takes the process
  outcome (captured stdout, stderr and exit code, or an abnormal
  launch/signal error) as an explicit parameter.
-/

/-- Test for strings.HasSuffix(s, "\n"): since '\n' is a one-byte ASCII
character, a string ends with the byte '\n' exactly when its last character
is '\n'. -/
def endsWithNewline (s : String) : Bool :=
  s.data.getLast? == some '\n'

/-- StubReporter state: from src/stubreporter.go (fields log, failed, killed). -/
structure StubReporter where
  log : String
  failed : Bool
  killed : Bool
deriving DecidableEq, Repr

/-- Zero value of StubReporter (Go: var sr StubReporter). -/
def StubReporter.init : StubReporter := ⟨"", false, false⟩

/-- Helper does nothing (src/stubreporter.go). -/
def StubReporter.Helper (sr : StubReporter) : StubReporter := sr

/-- Fail marks the test failed. -/
def StubReporter.Fail (sr : StubReporter) : StubReporter :=
  ⟨sr.log, true, sr.killed⟩

/-- Failed reports whether the test was marked failed. -/
def StubReporter.Failed (sr : StubReporter) : Bool := sr.failed

/-- FailNow calls Fail and sets killed. -/
def StubReporter.FailNow (sr : StubReporter) : StubReporter :=
  ⟨sr.Fail.log, sr.Fail.failed, true⟩

/-- Killed reports whether FailNow was called. -/
def StubReporter.Killed (sr : StubReporter) : Bool := sr.killed

/-- Log records the Fprintln-formatted arguments: the space-joined argument
text (parameter line) followed by a newline. -/
def StubReporter.Log (sr : StubReporter) (line : String) : StubReporter :=
  ⟨sr.log ++ line ++ "\n", sr.failed, sr.killed⟩

/-- Logf appends the Sprintf-formatted text (parameter formatted), then, if
nothing was appended (formatted is empty) or the log does not end with a
newline, appends one newline byte (src/stubreporter.go Logf). -/
def StubReporter.Logf (sr : StubReporter) (formatted : String) : StubReporter :=
  if formatted = "" ∨ endsWithNewline (sr.log ++ formatted) = false then
    ⟨sr.log ++ formatted ++ "\n", sr.failed, sr.killed⟩
  else
    ⟨sr.log ++ formatted, sr.failed, sr.killed⟩

/-- Logged returns the recorded text. -/
def StubReporter.Logged (sr : StubReporter) : String := sr.log

/-- Error calls Fail and Log. -/
def StubReporter.Error (sr : StubReporter) (line : String) : StubReporter :=
  sr.Fail.Log line

/-- Errorf calls Fail and Logf. -/
def StubReporter.Errorf (sr : StubReporter) (formatted : String) : StubReporter :=
  sr.Fail.Logf formatted

/-- Fatal calls FailNow and Log. -/
def StubReporter.Fatal (sr : StubReporter) (line : String) : StubReporter :=
  sr.FailNow.Log line

/-- Fatalf calls FailNow and Logf. -/
def StubReporter.Fatalf (sr : StubReporter) (formatted : String) : StubReporter :=
  sr.FailNow.Logf formatted

/-- Reset returns a StubReporter to the initial state. -/
def StubReporter.Reset (_sr : StubReporter) : StubReporter :=
  ⟨"", false, false⟩

/-- Reporter interface (src/gotest.go): methods as state transformers over a
reporter state type, with pre-formatted text arguments. -/
structure ReporterOps (σ : Type) where
  Error : σ → String → σ
  Errorf : σ → String → σ
  Fail : σ → σ
  FailNow : σ → σ
  Failed : σ → Bool
  Fatal : σ → String → σ
  Fatalf : σ → String → σ
  Helper : σ → σ
  Log : σ → String → σ
  Logf : σ → String → σ

/-- The StubReporter instance of the Reporter interface. -/
def stubReporterOps : ReporterOps StubReporter :=
  ⟨StubReporter.Error, StubReporter.Errorf, StubReporter.Fail,
   StubReporter.FailNow, StubReporter.Failed, StubReporter.Fatal,
   StubReporter.Fatalf, StubReporter.Helper, StubReporter.Log,
   StubReporter.Logf⟩

/-- ErrorsNotFatal wraps a Reporter; the embedded Reporter's methods are
forwarded, except that FailNow calls the wrapped Fail, Fatal calls the
wrapped Error, and Fatalf calls the wrapped Errorf (src/gotest.go). -/
def ErrorsNotFatal (r : ReporterOps σ) : ReporterOps σ :=
  ⟨r.Error, r.Errorf, r.Fail, r.Fail, r.Failed, r.Error, r.Errorf,
   r.Helper, r.Log, r.Logf⟩

/-- One reporter call observed from code under test, with pre-formatted text. -/
inductive Ev where
  | helper : Ev
  | error : String → Ev
  | errorf : String → Ev
  | fatal : String → Ev
  | failNow : Ev
deriving DecidableEq, Repr

/-- Replay one recorded reporter call on a StubReporter. -/
def StubReporter.applyEv (sr : StubReporter) : Ev → StubReporter
  | .helper => sr.Helper
  | .error s => sr.Error s
  | .errorf s => sr.Errorf s
  | .fatal s => sr.Fatal s
  | .failNow => sr.FailNow

/-- Replay a trace of reporter calls on a StubReporter. -/
def StubReporter.applyEvs (sr : StubReporter) (evs : List Ev) : StubReporter :=
  evs.foldl StubReporter.applyEv sr

/-- One StubReporter operation, for reasoning about arbitrary call sequences.
Formatted-text-taking methods carry their text; the pure queries (Failed,
Killed, Logged) do not change state and so need no operation here. -/
inductive StubOp where
  | fail : StubOp
  | failNow : StubOp
  | helper : StubOp
  | reset : StubOp
  | error : String → StubOp
  | errorf : String → StubOp
  | fatal : String → StubOp
  | fatalf : String → StubOp
  | log : String → StubOp
  | logf : String → StubOp
deriving DecidableEq, Repr

/-- Perform one StubReporter operation. -/
def StubReporter.applyOp (sr : StubReporter) : StubOp → StubReporter
  | .fail => sr.Fail
  | .failNow => sr.FailNow
  | .helper => sr.Helper
  | .reset => sr.Reset
  | .error s => sr.Error s
  | .errorf s => sr.Errorf s
  | .fatal s => sr.Fatal s
  | .fatalf s => sr.Fatalf s
  | .log s => sr.Log s
  | .logf s => sr.Logf s

/-- Perform a sequence of StubReporter operations. -/
def StubReporter.runOps (sr : StubReporter) (ops : List StubOp) : StubReporter :=
  ops.foldl StubReporter.applyOp sr

/-- The operations among Fail, FailNow, Error, Errorf, Fatal, Fatalf:
exactly those that mark the test failed. -/
def isFailingOp : StubOp → Bool
  | .fail => true
  | .failNow => true
  | .error _ => true
  | .errorf _ => true
  | .fatal _ => true
  | .fatalf _ => true
  | _ => false

/-- The operations that invoke FailNow (directly or via Fatal or Fatalf). -/
def isKillingOp : StubOp → Bool
  | .failNow => true
  | .fatal _ => true
  | .fatalf _ => true
  | _ => false

/-- Expect (src/stubreporter.go) as a trace of the calls it makes on the
Reporter t it is given: Helper, per-mismatch Error or Errorf, and a final
FailNow when any mismatch occurred.  Error payloads are the space-joined
argument texts, the Errorf payload the Sprintf result. -/
def StubReporter.Expect (sr : StubReporter) (failed killed : Bool)
    (log when : String) : List Ev :=
  let evs : List Ev := [.helper]
  let p1 : List Ev × Bool :=
    if sr.Failed = failed then (evs, true)
    else (evs ++ [.error ((if failed then "StubReporter marked not failed"
                           else "StubReporter marked failed") ++ " " ++ when)],
          false)
  let p2 : List Ev × Bool :=
    if sr.Killed = killed then (p1.1, p1.2)
    else (p1.1 ++ [.error ((if killed then "StubReporter marked not killed"
                            else "StubReporter marked killed") ++ " " ++ when)],
          false)
  let p3 : List Ev × Bool :=
    if sr.Logged = log then (p2.1, p2.2)
    else (p2.1 ++ [.errorf (when ++ " StubReporter log is '" ++ sr.Logged ++
                            "'; expected '" ++ log ++ "'")],
          false)
  if p3.2 then p3.1 else p3.1 ++ [.failNow]

/-- A Cmd runs an external command inside a test case (src/runcmd_test.go,
type Cmd): program name, arguments, working directory, and the three
optional check functions. -/
structure Cmd where
  name : String
  args : List String
  dir : String
  checkOut : Option (String → Bool)
  checkErr : Option (String → Bool)
  checkCode : Option (Int → Bool)

/-- Command creates a Cmd to run a specific command. -/
def Command (name : String) (args : List String) : Cmd :=
  ⟨name, args, "", none, none, none⟩

/-- CheckStdout sets the function used to check the command's output. -/
def Cmd.CheckStdout (c : Cmd) (check : Option (String → Bool)) : Cmd :=
  ⟨c.name, c.args, c.dir, check, c.checkErr, c.checkCode⟩

/-- CheckStderr sets the function used to check the error output. -/
def Cmd.CheckStderr (c : Cmd) (check : Option (String → Bool)) : Cmd :=
  ⟨c.name, c.args, c.dir, c.checkOut, check, c.checkCode⟩

/-- CheckCode sets the function used to check the exit code. -/
def Cmd.CheckCode (c : Cmd) (check : Option (Int → Bool)) : Cmd :=
  ⟨c.name, c.args, c.dir, c.checkOut, c.checkErr, check⟩

/-- WantStdout installs an equality check for stdout. -/
def Cmd.WantStdout (c : Cmd) (expected : String) : Cmd :=
  c.CheckStdout (some fun actual => actual == expected)

/-- WantStderr installs an equality check for stderr. -/
def Cmd.WantStderr (c : Cmd) (expected : String) : Cmd :=
  c.CheckStderr (some fun actual => actual == expected)

/-- WantCode installs an equality check for the exit code. -/
def Cmd.WantCode (c : Cmd) (expected : Int) : Cmd :=
  c.CheckCode (some fun actual => actual == expected)

/-- Chdir sets the working directory for the command. -/
def Cmd.Chdir (c : Cmd) (path : String) : Cmd :=
  ⟨c.name, c.args, path, c.checkOut, c.checkErr, c.checkCode⟩

/-- Outcome of the underlying process execution (external collaborator):
either the process exited with a code after stdout and stderr were
captured, or the launch failed or the process was terminated by a signal,
carrying the error text of the launch-level error. -/
inductive ProcOutcome where
  | exited : String → String → Int → ProcOutcome
  | abnormal : String → ProcOutcome

/-- Result of a Cmd.Run call: the trace of reporter calls, the panic
message when Run panicked, and the value of the receiver afterwards. -/
structure RunResult where
  events : List Ev
  panicked : Option String
  recv : Cmd

/-- The panic message of Run for a Cmd with no program name. -/
def cmdNotInitMsg : String :=
  "gotest.Cmd not initialized; use gotest.Command to create Cmds"

/-- Stdout check result (Cmd.Run step on c.checkOut): true when the check
passes.  With no check installed, stdout must be empty. -/
def outCheckOk (c : Cmd) (out : String) : Bool :=
  match c.checkOut with
  | none => decide (out = "")
  | some check => check out

/-- Messages reported by the stdout check of Cmd.Run. -/
def outCheckEvs (c : Cmd) (out : String) : List Ev :=
  match c.checkOut with
  | none => if out = "" then [] else [.error "unexpected output"]
  | some check => if check out then [] else [.error "incorrect output"]

/-- Stderr check result (Cmd.Run step on c.checkErr). -/
def errCheckOk (c : Cmd) (err : String) : Bool :=
  match c.checkErr with
  | none => decide (err = "")
  | some check => check err

/-- Messages reported by the stderr check of Cmd.Run. -/
def errCheckEvs (c : Cmd) (err : String) : List Ev :=
  match c.checkErr with
  | none => if err = "" then [] else [.error "unexpected error output"]
  | some check => if check err then [] else [.error "incorrect error output"]

/-- Exit-code check result (Cmd.Run step on c.checkCode).  An installed
check is always applied; the default policy is evaluated only when prevOk
holds (both prior checks passed) and then requires code 0 exactly when
stderr was empty. -/
def codeCheckOk (c : Cmd) (prevOk : Bool) (err : String) (code : Int) : Bool :=
  match c.checkCode with
  | none =>
    if prevOk then
      if err = "" then decide (code = 0) else decide (code ≠ 0)
    else true
  | some check => check code

/-- Messages reported by the exit-code check of Cmd.Run. -/
def codeCheckEvs (c : Cmd) (prevOk : Bool) (err : String) (code : Int) : List Ev :=
  match c.checkCode with
  | none =>
    if prevOk then
      if err = "" then
        if code = 0 then [] else [.error "non-zero exit code"]
      else
        if code = 0 then [.error "error output produced but exit code was 0"] else []
    else []
  | some check => if check code then [] else [.error "incorrect exit code"]

/-- The value of the ok flag of Cmd.Run after all three checks. -/
def allOk (c : Cmd) (out err : String) (code : Int) : Bool :=
  outCheckOk c out && errCheckOk c err &&
    codeCheckOk c (outCheckOk c out && errCheckOk c err) err code

/-- The structured diagnostic block Cmd.Run reports when any check failed:
the command line (args and their preceding space omitted when there are
none), the input, the captured stdout, the captured stderr, and the exit
code. -/
def diagEvs (c : Cmd) (input out err : String) (code : Int) : List Ev :=
  [if c.args = [] then Ev.errorf ("command: " ++ c.name)
   else Ev.errorf ("command: " ++ c.name ++ " " ++ String.intercalate " " c.args),
   if input = "" then Ev.error "no input" else Ev.errorf ("input:\n" ++ input),
   if out = "" then Ev.error "no output" else Ev.errorf ("output:\n" ++ out),
   if err = "" then Ev.error "no error output" else Ev.errorf ("error output:\n" ++ err),
   Ev.errorf ("exit code: " ++ toString code)]

/-- Run (src/runcmd_test.go, Cmd.Run): marks the helper frame, panics when
the Cmd has no program name, reports a launch-level error via Fatal and
returns, and otherwise evaluates the three checks in order, followed on
any failure by the diagnostic block and one FailNow. -/
def Cmd.Run (c : Cmd) (input : String) (proc : ProcOutcome) : RunResult :=
  if c.name = "" then ⟨[.helper], some cmdNotInitMsg, c⟩
  else
    match proc with
    | .abnormal e => ⟨[.helper, .fatal e], none, c⟩
    | .exited out err code =>
      let checkEvs := outCheckEvs c out ++ errCheckEvs c err ++
        codeCheckEvs c (outCheckOk c out && errCheckOk c err) err code
      if allOk c out err code then ⟨.helper :: checkEvs, none, c⟩
      else ⟨.helper :: (checkEvs ++ diagEvs c input out err code ++ [.failNow]),
            none, c⟩

/-- Rendering of over-threshold combined output in RunCommand
(src/gotest.go): first 150 bytes, ellipsis marker, last 150 bytes. -/
def renderLongOutput (out : List Char) : String :=
  String.mk (out.take 150) ++ " ... " ++ String.mk (out.drop (out.length - 150))

/-- RunCommand (src/gotest.go) as a trace of reporter calls.  The combined
output of the command is a byte sequence, modelled as a list of characters;
e is the error value of CombinedOutput rendered as text, none on success. -/
def RunCommand (command : String) (out : List Char) (e : Option String) : List Ev :=
  let evs1 : List Ev :=
    if out = [] then []
    else
      [.errorf (command ++ ": unexpected output:")] ++
        (if out.length < 500 then [.errorf (String.mk out)]
         else [.errorf (renderLongOutput out)])
  let evs2 : List Ev :=
    match e with
    | none => []
    | some msg => [.errorf (command ++ ": " ++ msg)]
  if out = [] ∧ e = none then evs1 ++ evs2 else evs1 ++ evs2 ++ [.failNow]

/-! ### Helper lemmas -/

lemma logf_log_append_newline (s : String) :
    (s ++ "\n").data.getLast? = some '\n' := by
  simp [String.data_append]

lemma stubLogf_failed (sr : StubReporter) (s : String) :
    (sr.Logf s).failed = sr.failed := by
  unfold StubReporter.Logf
  split <;> rfl

lemma stubLogf_killed (sr : StubReporter) (s : String) :
    (sr.Logf s).killed = sr.killed := by
  unfold StubReporter.Logf
  split <;> rfl

/-! ### C3: abnormal termination of the process -/

/-- C3: when the launch fails or the process is terminated by a signal
(ProcOutcome.abnormal), Run of an initialized Cmd reports the underlying
error once via the reporter's Fatal and returns at once: the whole trace is
the Helper mark followed by that single Fatal call, so no stdout, stderr or
exit-code check message and no diagnostic block is reported, no FailNow is
called, Run does not panic, and the receiver is unchanged.  The trace being
closed after the Fatal call expresses that nothing more happens even when
Fatal returns. -/
theorem cmd_run_abnormal_termination (c : Cmd) (input e : String)
    (h : ¬ c.name = "") :
    c.Run input (.abnormal e) = ⟨[.helper, .fatal e], none, c⟩ := by
  unfold Cmd.Run
  rw [if_neg h]

/-- Witness for cmd_run_abnormal_termination at a concrete Cmd. -/
theorem cmd_run_abnormal_termination_witness :
    ¬ (Command "/bin/ls" []).name = "" ∧
    (Command "/bin/ls" []).Run "" (.abnormal "chdir nondir: no such file or directory") =
      ⟨[.helper, .fatal "chdir nondir: no such file or directory"], none,
       Command "/bin/ls" []⟩ :=
  ⟨by decide,
   cmd_run_abnormal_termination (Command "/bin/ls" []) ""
     "chdir nondir: no such file or directory" (by decide)⟩

/-! ### C4: Run on an unconfigured Cmd panics -/

/-- C4: Run on a Cmd whose program name is empty panics with exactly the
message "gotest.Cmd not initialized; use gotest.Command to create Cmds",
whatever the would-be process outcome is (the panic precedes any launch),
and the reporter receives only the state-preserving Helper mark: replaying
the trace on any StubReporter leaves it unchanged, so failed, killed and
the log are untouched. -/
theorem cmd_run_uninitialized_panics (c : Cmd) (input : String)
    (proc : ProcOutcome) (h : c.name = "") :
    (c.Run input proc).panicked =
      some "gotest.Cmd not initialized; use gotest.Command to create Cmds" ∧
    (c.Run input proc).events = [.helper] ∧
    ∀ sr : StubReporter, sr.applyEvs (c.Run input proc).events = sr := by
  unfold Cmd.Run
  rw [if_pos h]
  exact ⟨rfl, rfl, fun sr => rfl⟩

/-- Witness for cmd_run_uninitialized_panics at the zero-valued Cmd. -/
theorem cmd_run_uninitialized_panics_witness :
    (Cmd.mk "" [] "" none none none).name = "" ∧
    ((Cmd.mk "" [] "" none none none).Run "" (.exited "out" "err" 7)).panicked =
      some "gotest.Cmd not initialized; use gotest.Command to create Cmds" ∧
    StubReporter.init.applyEvs
      ((Cmd.mk "" [] "" none none none).Run "" (.exited "out" "err" 7)).events =
      StubReporter.init :=
  ⟨rfl,
   (cmd_run_uninitialized_panics (Cmd.mk "" [] "" none none none) ""
      (.exited "out" "err" 7) rfl).1,
   (cmd_run_uninitialized_panics (Cmd.mk "" [] "" none none none) ""
      (.exited "out" "err" 7) rfl).2.2 StubReporter.init⟩

/-! ### C10: Run does not modify its receiver -/

/-- C10: Cmd.Run never modifies its receiver: for every Cmd, input and
process outcome — all checks passing, checks failing with diagnostics, a
launch error, or the panic on an empty program name — the receiver after
the call (the recv field of the result) is the very Cmd the call started
from, with the same program name, arguments, working directory and check
functions, so the Cmd can be re-run or re-configured afterwards. -/
theorem cmd_run_preserves_receiver (c : Cmd) (input : String)
    (proc : ProcOutcome) :
    (c.Run input proc).recv = c := by
  unfold Cmd.Run
  split
  · rfl
  · cases proc with
    | exited out err code =>
      dsimp only
      split <;> rfl
    | abnormal e => rfl

/-! ### C5: the Logf newline guarantee -/

/-- C5 counterexample: replaying the repository's own TestStubLogf prefix,
the single call Logf with empty formatted text on a StubReporter whose log
is "money\n" leaves the accumulated log "money\n\n", whose last two
characters are both newlines.  So a single Logf call can leave the log
ending in a double newline, refuting that the accumulated log always ends
with exactly one newline. -/
theorem stub_logf_single_newline_refuted :
    (StubReporter.init.Logf "money").log = "money\n" ∧
    ((StubReporter.init.Logf "money").Logf "").log = "money\n\n" ∧
    "money\n\n".data.getLast? = some '\n' ∧
    "money\n\n".data.dropLast.getLast? = some '\n' := by
  refine ⟨by decide, by decide, by decide, by decide⟩

/-- C5 amended: a single Logf call appends the formatted text and then one
trailing newline exactly when the formatted text is empty or the log does
not then end with a newline (otherwise it appends nothing more), and the
accumulated log afterwards always ends with at least one newline; failed
and killed are untouched.  (The log need not end with exactly one newline:
see the counterexample.) -/
theorem stub_logf_newline_discipline (sr : StubReporter) (formatted : String) :
    (sr.Logf formatted).log.data.getLast? = some '\n' ∧
    ((sr.Logf formatted).log = sr.log ++ formatted ++ "\n" ∨
     (sr.Logf formatted).log = sr.log ++ formatted) ∧
    ((sr.Logf formatted).log = sr.log ++ formatted ++ "\n" ↔
      (formatted = "" ∨ endsWithNewline (sr.log ++ formatted) = false)) ∧
    (sr.Logf formatted).failed = sr.failed ∧
    (sr.Logf formatted).killed = sr.killed := by
  refine ⟨?_, ?_, ?_, stubLogf_failed sr formatted, stubLogf_killed sr formatted⟩
  · unfold StubReporter.Logf
    split
    · exact logf_log_append_newline (sr.log ++ formatted)
    · rename_i hcond
      push_neg at hcond
      have h2 := hcond.2
      simp only [Bool.not_eq_false] at h2
      unfold endsWithNewline at h2
      simpa using h2
  · unfold StubReporter.Logf
    split
    · exact Or.inl rfl
    · exact Or.inr rfl
  · have hne : sr.log ++ formatted ≠ sr.log ++ formatted ++ "\n" := by
      intro hcontra
      have := congrArg String.length hcontra
      simp only [String.length_append] at this
      have hnl : "\n".length = 1 := rfl
      rw [hnl] at this
      omega
    unfold StubReporter.Logf
    split
    · rename_i hcond
      simpa using hcond
    · rename_i hcond
      simp only [hne, false_iff]
      push_neg at hcond
      exact fun hor => hor.elim hcond.1 (by simpa using hcond.2)

/-! ### C6: the ErrorsNotFatal policy wrapper -/

/-- C6: ErrorsNotFatal wraps any Reporter and forwards Error, Errorf, Fail,
Failed, Helper, Log and Logf unchanged, while its FailNow is the wrapped
reporter's Fail, its Fatal the wrapped Error, and its Fatalf the wrapped
Errorf; instantiated at a StubReporter, FailNow, Fatal and Fatalf through
the wrapper mark the reporter failed with the corresponding log text but
leave killed unchanged (in particular never set it). -/
theorem errors_not_fatal_refines_fail :
    (∀ (σ : Type) (r : ReporterOps σ),
      ((ErrorsNotFatal r).Error = r.Error ∧
       (ErrorsNotFatal r).Errorf = r.Errorf ∧
       (ErrorsNotFatal r).Fail = r.Fail ∧
       (ErrorsNotFatal r).Failed = r.Failed ∧
       (ErrorsNotFatal r).Helper = r.Helper ∧
       (ErrorsNotFatal r).Log = r.Log ∧
       (ErrorsNotFatal r).Logf = r.Logf) ∧
      ((ErrorsNotFatal r).FailNow = r.Fail ∧
       (ErrorsNotFatal r).Fatal = r.Error ∧
       (ErrorsNotFatal r).Fatalf = r.Errorf)) ∧
    ∀ (sr : StubReporter) (line formatted : String),
      (((ErrorsNotFatal stubReporterOps).FailNow sr).failed = true ∧
       ((ErrorsNotFatal stubReporterOps).FailNow sr).killed = sr.killed ∧
       ((ErrorsNotFatal stubReporterOps).FailNow sr).log = sr.log) ∧
      ((ErrorsNotFatal stubReporterOps).Fatal sr line = sr.Error line ∧
       ((ErrorsNotFatal stubReporterOps).Fatal sr line).failed = true ∧
       ((ErrorsNotFatal stubReporterOps).Fatal sr line).killed = sr.killed ∧
       ((ErrorsNotFatal stubReporterOps).Fatal sr line).log =
         sr.log ++ line ++ "\n") ∧
      ((ErrorsNotFatal stubReporterOps).Fatalf sr formatted = sr.Errorf formatted ∧
       ((ErrorsNotFatal stubReporterOps).Fatalf sr formatted).failed = true ∧
       ((ErrorsNotFatal stubReporterOps).Fatalf sr formatted).killed = sr.killed) := by
  constructor
  · intro σ r
    exact ⟨⟨rfl, rfl, rfl, rfl, rfl, rfl, rfl⟩, ⟨rfl, rfl, rfl⟩⟩
  · intro sr line formatted
    refine ⟨⟨rfl, rfl, rfl⟩, ⟨rfl, rfl, rfl, rfl⟩, rfl, ?_, ?_⟩
    · show (sr.Errorf formatted).failed = true
      unfold StubReporter.Errorf
      rw [stubLogf_failed]
      rfl
    · show (sr.Errorf formatted).killed = sr.killed
      unfold StubReporter.Errorf
      rw [stubLogf_killed]
      rfl

/-! ### C7: StubReporter.Expect -/

/-- C7: Expect always performs all three comparisons (failed, killed, log)
against the recorder's state; the trace it sends to the other reporter is
the Helper mark, then one descriptive fail-level message per mismatching
field — naming the field and whether the actual value was failed or not
failed (resp. killed), and for the log quoting the actual and expected
text — and a single final FailNow exactly when at least one field
mismatched; when all three match, nothing is reported. -/
theorem stub_expect_reports_mismatches (sr : StubReporter) (f k : Bool)
    (l w : String) :
    sr.Expect f k l w =
      [Ev.helper] ++
      (if sr.failed = f then []
       else [Ev.error ((if f then "StubReporter marked not failed"
                        else "StubReporter marked failed") ++ " " ++ w)]) ++
      (if sr.killed = k then []
       else [Ev.error ((if k then "StubReporter marked not killed"
                        else "StubReporter marked killed") ++ " " ++ w)]) ++
      (if sr.log = l then []
       else [Ev.errorf (w ++ " StubReporter log is '" ++ sr.log ++
                        "'; expected '" ++ l ++ "'")]) ++
      (if sr.failed = f ∧ sr.killed = k ∧ sr.log = l then [] else [Ev.failNow]) ∧
    ((sr.Expect f k l w).count Ev.failNow = 1 ↔
      ¬(sr.failed = f ∧ sr.killed = k ∧ sr.log = l)) ∧
    (sr.failed = f ∧ sr.killed = k ∧ sr.log = l → sr.Expect f k l w = [Ev.helper]) := by
  unfold StubReporter.Expect StubReporter.Failed StubReporter.Killed StubReporter.Logged
  by_cases h1 : sr.failed = f <;> by_cases h2 : sr.killed = k <;>
    by_cases h3 : sr.log = l <;>
    simp [h1, h2, h3, List.count_cons, List.count_append]

/-- Witness for stub_expect_reports_mismatches: the all-match case reports
nothing, and a mismatching case calls FailNow exactly once. -/
theorem stub_expect_reports_mismatches_witness :
    StubReporter.init.Expect false false "" "x" = [Ev.helper] ∧
    ((StubReporter.mk "run!\n" true true).Expect false false "walk\n" "").count
      Ev.failNow = 1 :=
  ⟨(stub_expect_reports_mismatches StubReporter.init false false "" "x").2.2
     ⟨rfl, rfl, rfl⟩,
   (stub_expect_reports_mismatches (StubReporter.mk "run!\n" true true)
      false false "walk\n" "").2.1.mpr (by decide)⟩

/-! ### C8: StubReporter failed/killed flags over operation sequences -/
lemma applyOp_reset (sr : StubReporter) :
    sr.applyOp StubOp.reset = StubReporter.init := rfl

lemma concat_eq_concat_iff {α : Type} {l1 l2 : List α} {a b : α}
    (h : l1 ++ [a] = l2 ++ [b]) : l1 = l2 ∧ a = b := by
  have h2 := congrArg List.reverse h
  simp only [List.reverse_append, List.reverse_cons, List.reverse_nil,
    List.nil_append, List.singleton_append] at h2
  injection h2 with ha hl
  refine ⟨?_, ha⟩
  have h3 := congrArg List.reverse hl
  simpa using h3

lemma runOps_concat (sr : StubReporter) (ops : List StubOp) (op : StubOp) :
    sr.runOps (ops ++ [op]) = (sr.runOps ops).applyOp op := by
  simp [StubReporter.runOps, List.foldl_append]

lemma runOps_flag_iff (flag : StubReporter → Bool) (setOp : StubOp → Bool)
    (hstep : ∀ sr op, op ≠ StubOp.reset →
      flag (sr.applyOp op) = (flag sr || setOp op))
    (hinit : flag StubReporter.init = false)
    (hnores : setOp StubOp.reset = false) :
    ∀ ops : List StubOp,
      flag (StubReporter.init.runOps ops) = true ↔
      ∃ pre op post, ops = pre ++ op :: post ∧ setOp op = true ∧
        StubOp.reset ∉ post := by
  intro ops
  induction ops using List.reverseRecOn with
  | nil =>
    constructor
    · intro hcontra
      rw [show StubReporter.init.runOps [] = StubReporter.init from rfl,
        hinit] at hcontra
      exact absurd hcontra (by simp)
    · rintro ⟨pre, op, post, hsplit, -, -⟩
      exact absurd hsplit.symm (by simp)
  | append_singleton ops op ih =>
    rw [runOps_concat]
    by_cases hop : op = StubOp.reset
    · subst hop
      rw [applyOp_reset, hinit]
      constructor
      · intro hcontra
        exact absurd hcontra (by simp)
      · rintro ⟨pre, o, post, hsplit, hset, hpost⟩
        rcases List.eq_nil_or_concat' post with hp | ⟨post2, lastop, rfl⟩
        · subst hp
          obtain ⟨-, ho⟩ := concat_eq_concat_iff hsplit
          rw [← ho, hnores] at hset
          exact absurd hset (by simp)
        · have hsplit2 : ops ++ [StubOp.reset] = (pre ++ o :: post2) ++ [lastop] := by
            rw [hsplit]; simp
          obtain ⟨-, ho⟩ := concat_eq_concat_iff hsplit2
          exact absurd (show StubOp.reset ∈ post2 ++ [lastop] by simp [← ho]) hpost
    · rw [hstep _ _ hop]
      constructor
      · intro hor
        simp only [Bool.or_eq_true] at hor
        rcases hor with hflag | hsetop
        · obtain ⟨pre, o, post, hsplit, hset, hpost⟩ := ih.mp hflag
          refine ⟨pre, o, post ++ [op], by rw [hsplit]; simp, hset, ?_⟩
          intro hmem
          rcases List.mem_append.mp hmem with hmem1 | hmem2
          · exact hpost hmem1
          · simp at hmem2
            exact hop hmem2.symm
        · exact ⟨ops, op, [], rfl, hsetop, by simp⟩
      · rintro ⟨pre, o, post, hsplit, hset, hpost⟩
        simp only [Bool.or_eq_true]
        rcases List.eq_nil_or_concat' post with hp | ⟨post2, lastop, rfl⟩
        · subst hp
          obtain ⟨-, ho⟩ := concat_eq_concat_iff hsplit
          rw [ho]
          exact Or.inr hset
        · have hsplit2 : ops ++ [op] = (pre ++ o :: post2) ++ [lastop] := by
            rw [hsplit]; simp
          obtain ⟨hops, -⟩ := concat_eq_concat_iff hsplit2
          refine Or.inl (ih.mpr ⟨pre, o, post2, hops, hset, ?_⟩)
          intro hmem
          exact hpost (by simp [hmem])

lemma applyOp_failed_eq (sr : StubReporter) (op : StubOp)
    (h : op ≠ StubOp.reset) :
    (sr.applyOp op).failed = (sr.failed || isFailingOp op) := by
  cases op with
  | reset => exact absurd rfl h
  | fail => simp [StubReporter.applyOp, StubReporter.Fail, isFailingOp]
  | failNow =>
    simp [StubReporter.applyOp, StubReporter.FailNow, StubReporter.Fail, isFailingOp]
  | helper => simp [StubReporter.applyOp, StubReporter.Helper, isFailingOp]
  | error s =>
    simp [StubReporter.applyOp, StubReporter.Error, StubReporter.Log,
      StubReporter.Fail, isFailingOp]
  | errorf s =>
    simp [StubReporter.applyOp, StubReporter.Errorf, stubLogf_failed,
      StubReporter.Fail, isFailingOp]
  | fatal s =>
    simp [StubReporter.applyOp, StubReporter.Fatal, StubReporter.Log,
      StubReporter.FailNow, StubReporter.Fail, isFailingOp]
  | fatalf s =>
    simp [StubReporter.applyOp, StubReporter.Fatalf, stubLogf_failed,
      StubReporter.FailNow, StubReporter.Fail, isFailingOp]
  | log s => simp [StubReporter.applyOp, StubReporter.Log, isFailingOp]
  | logf s => simp [StubReporter.applyOp, stubLogf_failed, isFailingOp]

lemma applyOp_killed_eq (sr : StubReporter) (op : StubOp)
    (h : op ≠ StubOp.reset) :
    (sr.applyOp op).killed = (sr.killed || isKillingOp op) := by
  cases op with
  | reset => exact absurd rfl h
  | fail => simp [StubReporter.applyOp, StubReporter.Fail, isKillingOp]
  | failNow =>
    simp [StubReporter.applyOp, StubReporter.FailNow, StubReporter.Fail, isKillingOp]
  | helper => simp [StubReporter.applyOp, StubReporter.Helper, isKillingOp]
  | error s =>
    simp [StubReporter.applyOp, StubReporter.Error, StubReporter.Log,
      StubReporter.Fail, isKillingOp]
  | errorf s =>
    simp [StubReporter.applyOp, StubReporter.Errorf, stubLogf_killed,
      StubReporter.Fail, isKillingOp]
  | fatal s =>
    simp [StubReporter.applyOp, StubReporter.Fatal, StubReporter.Log,
      StubReporter.FailNow, StubReporter.Fail, isKillingOp]
  | fatalf s =>
    simp [StubReporter.applyOp, StubReporter.Fatalf, stubLogf_killed,
      StubReporter.FailNow, StubReporter.Fail, isKillingOp]
  | log s => simp [StubReporter.applyOp, StubReporter.Log, isKillingOp]
  | logf s => simp [StubReporter.applyOp, stubLogf_killed, isKillingOp]

theorem stub_failed_killed_characterization :
    (∀ ops : List StubOp,
      ((StubReporter.init.runOps ops).failed = true ↔
        ∃ pre op post, ops = pre ++ op :: post ∧ isFailingOp op = true ∧
          StubOp.reset ∉ post) ∧
      ((StubReporter.init.runOps ops).killed = true ↔
        ∃ pre op post, ops = pre ++ op :: post ∧ isKillingOp op = true ∧
          StubOp.reset ∉ post) ∧
      ((StubReporter.init.runOps ops).killed = true →
        (StubReporter.init.runOps ops).failed = true)) ∧
    (∀ (sr : StubReporter) (s : String),
      (sr.Log s).failed = sr.failed ∧ (sr.Logf s).failed = sr.failed ∧
      sr.Helper.failed = sr.failed ∧
      (sr.Log s).killed = sr.killed ∧ (sr.Logf s).killed = sr.killed ∧
      sr.Helper.killed = sr.killed) ∧
    (∀ (sr : StubReporter) (op : StubOp), op ≠ StubOp.reset →
      (sr.failed = true → (sr.applyOp op).failed = true) ∧
      (sr.killed = true → (sr.applyOp op).killed = true)) := by
  have hfail := runOps_flag_iff (fun sr => sr.failed) isFailingOp
    (fun sr op h => applyOp_failed_eq sr op h) rfl rfl
  have hkill := runOps_flag_iff (fun sr => sr.killed) isKillingOp
    (fun sr op h => applyOp_killed_eq sr op h) rfl rfl
  refine ⟨fun ops => ⟨hfail ops, hkill ops, ?_⟩, ?_, ?_⟩
  · intro hk
    obtain ⟨pre, op, post, hsplit, hset, hpost⟩ := (hkill ops).mp hk
    refine (hfail ops).mpr ⟨pre, op, post, hsplit, ?_, hpost⟩
    cases op <;> simp [isKillingOp, isFailingOp] at hset ⊢
  · intro sr s
    exact ⟨rfl, stubLogf_failed sr s, rfl, rfl, stubLogf_killed sr s, rfl⟩
  · intro sr op h
    constructor
    · intro hf
      rw [applyOp_failed_eq sr op h, hf]
      simp
    · intro hk
      rw [applyOp_killed_eq sr op h, hk]
      simp

theorem stub_failed_killed_characterization_witness :
    (StubReporter.init.runOps [StubOp.fatal "x", StubOp.log "y"]).killed = true ∧
    ((StubReporter.mk "" true true).applyOp (StubOp.log "z")).failed = true :=
  ⟨(stub_failed_killed_characterization.1
      [StubOp.fatal "x", StubOp.log "y"]).2.1.mpr
    ⟨[], StubOp.fatal "x", [StubOp.log "y"], rfl, rfl, by decide⟩,
   (stub_failed_killed_characterization.2.2 (StubReporter.mk "" true true)
      (StubOp.log "z") (by decide)).1 rfl⟩

/-! ### C1, C2, C9: Cmd.Run check policy and reporting, RunCommand truncation -/
lemma mem_outCheckEvs (c : Cmd) (out : String) (e : Ev)
    (he : e ∈ outCheckEvs c out) :
    e = Ev.error "unexpected output" ∨ e = Ev.error "incorrect output" := by
  rcases hco : c.checkOut with _ | f
  · simp only [outCheckEvs, hco] at he
    split at he
    · simp at he
    · simp at he
      exact Or.inl he
  · simp only [outCheckEvs, hco] at he
    split at he
    · simp at he
    · simp at he
      exact Or.inr he

lemma mem_errCheckEvs (c : Cmd) (err : String) (e : Ev)
    (he : e ∈ errCheckEvs c err) :
    e = Ev.error "unexpected error output" ∨
    e = Ev.error "incorrect error output" := by
  rcases hce : c.checkErr with _ | f
  · simp only [errCheckEvs, hce] at he
    split at he
    · simp at he
    · simp at he
      exact Or.inl he
  · simp only [errCheckEvs, hce] at he
    split at he
    · simp at he
    · simp at he
      exact Or.inr he

lemma mem_codeCheckEvs_shape (c : Cmd) (prevOk : Bool) (err : String)
    (code : Int) (e : Ev)
    (he : e ∈ codeCheckEvs c prevOk err code) : ∃ s, e = Ev.error s := by
  rcases hcc : c.checkCode with _ | f
  · simp only [codeCheckEvs, hcc] at he
    split at he
    · split at he
      · split at he
        · simp at he
        · simp at he
          exact ⟨_, he⟩
      · split at he
        · simp at he
          exact ⟨_, he⟩
        · simp at he
    · simp at he
  · simp only [codeCheckEvs, hcc] at he
    split at he
    · simp at he
    · simp at he
      exact ⟨_, he⟩

lemma mem_diagEvs (c : Cmd) (input out err : String) (code : Int) (e : Ev)
    (he : e ∈ diagEvs c input out err code) :
    (∃ s, e = Ev.errorf s) ∨ e = Ev.error "no input" ∨
    e = Ev.error "no output" ∨ e = Ev.error "no error output" := by
  unfold diagEvs at he
  simp only [List.mem_cons, List.not_mem_nil, or_false] at he
  rcases he with he | he | he | he | he
  · split at he
    · exact Or.inl ⟨_, he⟩
    · exact Or.inl ⟨_, he⟩
  · split at he
    · exact Or.inr (Or.inl he)
    · exact Or.inl ⟨_, he⟩
  · split at he
    · exact Or.inr (Or.inr (Or.inl he))
    · exact Or.inl ⟨_, he⟩
  · split at he
    · exact Or.inr (Or.inr (Or.inr he))
    · exact Or.inl ⟨_, he⟩
  · exact Or.inl ⟨_, he⟩

lemma run_events_decomp (c : Cmd) (input out err : String) (code : Int)
    (h : ¬ c.name = "") :
    (c.Run input (.exited out err code)).events =
      Ev.helper :: (outCheckEvs c out ++ errCheckEvs c err ++
        codeCheckEvs c (outCheckOk c out && errCheckOk c err) err code ++
        (if allOk c out err code then []
         else diagEvs c input out err code ++ [Ev.failNow])) := by
  unfold Cmd.Run
  rw [if_neg h]
  dsimp only
  split
  · rename_i hok
    simp [hok]
  · rename_i hok
    simp only [Bool.not_eq_true] at hok
    simp [hok, List.append_assoc]

lemma code_msg_not_mem (c : Cmd) (input out err : String) (code : Int)
    (msg : String)
    (hmsg : msg = "incorrect exit code" ∨ msg = "non-zero exit code" ∨
            msg = "error output produced but exit code was 0") :
    Ev.error msg ∉ outCheckEvs c out ∧ Ev.error msg ∉ errCheckEvs c err ∧
    Ev.error msg ∉ diagEvs c input out err code := by
  refine ⟨fun hm => ?_, fun hm => ?_, fun hm => ?_⟩
  · rcases mem_outCheckEvs c out _ hm with h1 | h1 <;>
      rcases hmsg with rfl | rfl | rfl <;> simp at h1
  · rcases mem_errCheckEvs c err _ hm with h1 | h1 <;>
      rcases hmsg with rfl | rfl | rfl <;> simp at h1
  · rcases mem_diagEvs c input out err code _ hm with ⟨s, h1⟩ | h1 | h1 | h1 <;>
      rcases hmsg with rfl | rfl | rfl <;> simp at h1

lemma code_msg_mem_iff (c : Cmd) (input out err : String) (code : Int)
    (h : ¬ c.name = "") (msg : String)
    (hmsg : msg = "incorrect exit code" ∨ msg = "non-zero exit code" ∨
            msg = "error output produced but exit code was 0") :
    (Ev.error msg ∈ (c.Run input (.exited out err code)).events ↔
     Ev.error msg ∈
       codeCheckEvs c (outCheckOk c out && errCheckOk c err) err code) := by
  rw [run_events_decomp c input out err code h]
  obtain ⟨h1, h2, h3⟩ := code_msg_not_mem c input out err code msg hmsg
  rw [List.mem_cons, List.mem_append, List.mem_append, List.mem_append]
  constructor
  · rintro (habs | (((hm | hm) | hm) | hm))
    · simp at habs
    · exact absurd hm h1
    · exact absurd hm h2
    · exact hm
    · split at hm
      · simp at hm
      · rcases List.mem_append.mp hm with hmd | hmf
        · exact absurd hmd h3
        · simp at hmf
  · intro hm
    exact Or.inr (Or.inl (Or.inr hm))

lemma codeCheckEvs_some_mem (c : Cmd) (f : Int → Bool)
    (hc : c.checkCode = some f) (prevOk : Bool) (err : String) (code : Int) :
    (Ev.error "incorrect exit code" ∈ codeCheckEvs c prevOk err code ↔
      f code = false) ∧
    Ev.error "non-zero exit code" ∉ codeCheckEvs c prevOk err code ∧
    Ev.error "error output produced but exit code was 0" ∉
      codeCheckEvs c prevOk err code := by
  by_cases hfc : f code = true <;> simp [codeCheckEvs, hc, hfc]

lemma codeCheckEvs_none_skip (c : Cmd) (hc : c.checkCode = none)
    (err : String) (code : Int) :
    codeCheckEvs c false err code = [] := by
  simp [codeCheckEvs, hc]

lemma codeCheckEvs_none_default (c : Cmd) (hc : c.checkCode = none)
    (err : String) (code : Int) :
    (Ev.error "non-zero exit code" ∈ codeCheckEvs c true err code ↔
      (err = "" ∧ ¬ code = 0)) ∧
    (Ev.error "error output produced but exit code was 0" ∈
      codeCheckEvs c true err code ↔ (¬ err = "" ∧ code = 0)) ∧
    Ev.error "incorrect exit code" ∉ codeCheckEvs c true err code := by
  by_cases herr : err = "" <;> by_cases hc0 : code = (0 : Int) <;>
    simp [codeCheckEvs, hc, herr, hc0]

/-- C1: exit-code checking policy of Cmd.Run for a process that exited with
a code.  With an installed exit-code check (CheckCode or WantCode), the
check is applied on every run — whatever the stdout and stderr checks did —
and "incorrect exit code" is reported exactly when it returns false, while
neither default message can appear.  With no installed check, "incorrect
exit code" never appears; the default policy is skipped entirely when the
stdout or stderr check failed, and when both passed it reports "non-zero
exit code" exactly when stderr was empty and the exit code is nonzero, and
"error output produced but exit code was 0" exactly when stderr was
non-empty and the exit code is 0. -/
theorem cmd_run_exit_code_policy (c : Cmd) (input out err : String)
    (code : Int) (h : ¬ c.name = "") :
    (∀ f, c.checkCode = some f →
      ((Ev.error "incorrect exit code" ∈
          (c.Run input (.exited out err code)).events ↔ f code = false) ∧
       Ev.error "non-zero exit code" ∉
         (c.Run input (.exited out err code)).events ∧
       Ev.error "error output produced but exit code was 0" ∉
         (c.Run input (.exited out err code)).events)) ∧
    (c.checkCode = none →
      (Ev.error "incorrect exit code" ∉
         (c.Run input (.exited out err code)).events ∧
       ((outCheckOk c out && errCheckOk c err) = false →
         Ev.error "non-zero exit code" ∉
           (c.Run input (.exited out err code)).events ∧
         Ev.error "error output produced but exit code was 0" ∉
           (c.Run input (.exited out err code)).events) ∧
       ((outCheckOk c out && errCheckOk c err) = true →
         ((Ev.error "non-zero exit code" ∈
             (c.Run input (.exited out err code)).events ↔
           (err = "" ∧ ¬ code = 0)) ∧
          (Ev.error "error output produced but exit code was 0" ∈
             (c.Run input (.exited out err code)).events ↔
           (¬ err = "" ∧ code = 0)))))) := by
  constructor
  · intro f hf
    obtain ⟨hiff, hnz, heo⟩ := codeCheckEvs_some_mem c f hf
      (outCheckOk c out && errCheckOk c err) err code
    refine ⟨?_, ?_, ?_⟩
    · rw [code_msg_mem_iff c input out err code h _ (Or.inl rfl)]
      exact hiff
    · rw [code_msg_mem_iff c input out err code h _ (Or.inr (Or.inl rfl))]
      exact hnz
    · rw [code_msg_mem_iff c input out err code h _ (Or.inr (Or.inr rfl))]
      exact heo
  · intro hcc
    refine ⟨?_, fun hb => ⟨?_, ?_⟩, fun hb => ⟨?_, ?_⟩⟩
    · rw [code_msg_mem_iff c input out err code h _ (Or.inl rfl)]
      rcases hb : (outCheckOk c out && errCheckOk c err)
      · rw [codeCheckEvs_none_skip c hcc err code]
        simp
      · exact (codeCheckEvs_none_default c hcc err code).2.2
    · rw [code_msg_mem_iff c input out err code h _ (Or.inr (Or.inl rfl)), hb,
        codeCheckEvs_none_skip c hcc err code]
      simp
    · rw [code_msg_mem_iff c input out err code h _ (Or.inr (Or.inr rfl)), hb,
        codeCheckEvs_none_skip c hcc err code]
      simp
    · rw [code_msg_mem_iff c input out err code h _ (Or.inr (Or.inl rfl)), hb]
      exact (codeCheckEvs_none_default c hcc err code).1
    · rw [code_msg_mem_iff c input out err code h _ (Or.inr (Or.inr rfl)), hb]
      exact (codeCheckEvs_none_default c hcc err code).2.1

/-- Witness for cmd_run_exit_code_policy: WantCode 17 with exit code 31, as
in TestCmdCode, reports "incorrect exit code" even though both output
checks pass; and the stdout default check failing suppresses the default
exit-code message, as in TestCmdDefaults with printf. -/
theorem cmd_run_exit_code_policy_witness :
    ¬ ((Command "/bin/sh" ["-c", "read x; exit $x"]).WantCode 17).name = "" ∧
    Ev.error "incorrect exit code" ∈
      (((Command "/bin/sh" ["-c", "read x; exit $x"]).WantCode 17).Run "31"
        (.exited "" "" 31)).events ∧
    Ev.error "non-zero exit code" ∉
      ((Command "/bin/printf" ["99"]).Run "" (.exited "99" "" 3)).events :=
  ⟨by decide,
   (((cmd_run_exit_code_policy ((Command "/bin/sh" ["-c", "read x; exit $x"]).WantCode 17)
       "31" "" "" 31 (by decide)).1 _ rfl).1).mpr (by decide),
   (((cmd_run_exit_code_policy (Command "/bin/printf" ["99"]) "" "99" "" 3
       (by decide)).2 rfl).2.1 (by decide)).1⟩

lemma outCheckEvs_nil (c : Cmd) (out : String) (h : outCheckOk c out = true) :
    outCheckEvs c out = [] := by
  rcases hco : c.checkOut with _ | f
  · simp only [outCheckOk, hco] at h
    have : out = "" := of_decide_eq_true h
    simp [outCheckEvs, hco, this]
  · simp only [outCheckOk, hco] at h
    simp [outCheckEvs, hco, h]

lemma errCheckEvs_nil (c : Cmd) (err : String) (h : errCheckOk c err = true) :
    errCheckEvs c err = [] := by
  rcases hce : c.checkErr with _ | f
  · simp only [errCheckOk, hce] at h
    have : err = "" := of_decide_eq_true h
    simp [errCheckEvs, hce, this]
  · simp only [errCheckOk, hce] at h
    simp [errCheckEvs, hce, h]

lemma codeCheckEvs_nil (c : Cmd) (prevOk : Bool) (err : String) (code : Int)
    (h : codeCheckOk c prevOk err code = true) :
    codeCheckEvs c prevOk err code = [] := by
  rcases hcc : c.checkCode with _ | f
  · simp only [codeCheckOk, hcc] at h
    rcases hp : prevOk
    · simp [codeCheckEvs, hcc, hp]
    · rw [hp] at h
      simp only [if_true] at h
      by_cases herr : err = ""
      · have : code = 0 := of_decide_eq_true (by simpa [herr] using h)
        simp [codeCheckEvs, hcc, herr, this]
      · have : ¬ code = 0 := of_decide_eq_true (by simpa [herr] using h)
        simp [codeCheckEvs, hcc, herr, this]
  · simp only [codeCheckOk, hcc] at h
    simp [codeCheckEvs, hcc, h]

lemma count_failNow_outCheckEvs (c : Cmd) (out : String) :
    (outCheckEvs c out).count Ev.failNow = 0 :=
  List.count_eq_zero.mpr fun hmem => by
    rcases mem_outCheckEvs c out _ hmem with h1 | h1 <;> simp at h1

lemma count_failNow_errCheckEvs (c : Cmd) (err : String) :
    (errCheckEvs c err).count Ev.failNow = 0 :=
  List.count_eq_zero.mpr fun hmem => by
    rcases mem_errCheckEvs c err _ hmem with h1 | h1 <;> simp at h1

lemma count_failNow_codeCheckEvs (c : Cmd) (prevOk : Bool) (err : String)
    (code : Int) :
    (codeCheckEvs c prevOk err code).count Ev.failNow = 0 :=
  List.count_eq_zero.mpr fun hmem => by
    rcases mem_codeCheckEvs_shape c prevOk err code _ hmem with ⟨s, h1⟩
    simp at h1

lemma count_failNow_diagEvs (c : Cmd) (input out err : String) (code : Int) :
    (diagEvs c input out err code).count Ev.failNow = 0 :=
  List.count_eq_zero.mpr fun hmem => by
    rcases mem_diagEvs c input out err code _ hmem with ⟨s, h1⟩ | h1 | h1 | h1 <;>
      simp at h1

/-- C2: the diagnostic protocol of Cmd.Run.  When any check fails, the
reporter receives, in this exact order: the per-check failure messages in
evaluation order (stdout, then stderr, then exit code); the "command:"
line, with the args joined by single spaces and the args and their
preceding space omitted entirely when the argument list is empty; "no
input" or "input:" with the input text; "no output" or "output:" with the
captured stdout; "no error output" or "error output:" with the captured
stderr; "exit code:" with the code; and one final FailNow — the trace ends
with it and contains exactly one FailNow, so it comes after all diagnostic
lines.  When every check passes, Run reports nothing beyond the Helper
mark: no message, no Fail-type call at all. -/
theorem cmd_run_failure_report_order (c : Cmd) (input out err : String)
    (code : Int) (h : ¬ c.name = "") :
    (allOk c out err code = false →
      (c.Run input (.exited out err code)).events =
        [Ev.helper] ++ outCheckEvs c out ++ errCheckEvs c err ++
          codeCheckEvs c (outCheckOk c out && errCheckOk c err) err code ++
          [if c.args = [] then Ev.errorf ("command: " ++ c.name)
           else Ev.errorf ("command: " ++ c.name ++ " " ++
             String.intercalate " " c.args),
           if input = "" then Ev.error "no input"
           else Ev.errorf ("input:\n" ++ input),
           if out = "" then Ev.error "no output"
           else Ev.errorf ("output:\n" ++ out),
           if err = "" then Ev.error "no error output"
           else Ev.errorf ("error output:\n" ++ err),
           Ev.errorf ("exit code: " ++ toString code), Ev.failNow] ∧
      (c.Run input (.exited out err code)).events.getLast? = some Ev.failNow ∧
      (c.Run input (.exited out err code)).events.count Ev.failNow = 1) ∧
    (allOk c out err code = true →
      (c.Run input (.exited out err code)).events = [Ev.helper]) := by
  have hdec := run_events_decomp c input out err code h
  constructor
  · intro hfail
    have hev : (c.Run input (.exited out err code)).events =
        [Ev.helper] ++ outCheckEvs c out ++ errCheckEvs c err ++
          codeCheckEvs c (outCheckOk c out && errCheckOk c err) err code ++
          [if c.args = [] then Ev.errorf ("command: " ++ c.name)
           else Ev.errorf ("command: " ++ c.name ++ " " ++
             String.intercalate " " c.args),
           if input = "" then Ev.error "no input"
           else Ev.errorf ("input:\n" ++ input),
           if out = "" then Ev.error "no output"
           else Ev.errorf ("output:\n" ++ out),
           if err = "" then Ev.error "no error output"
           else Ev.errorf ("error output:\n" ++ err),
           Ev.errorf ("exit code: " ++ toString code), Ev.failNow] := by
      rw [hdec]
      simp [hfail, diagEvs, List.append_assoc]
    refine ⟨hev, ?_, ?_⟩
    · rw [hev]
      have hsplit : [Ev.helper] ++ outCheckEvs c out ++ errCheckEvs c err ++
          codeCheckEvs c (outCheckOk c out && errCheckOk c err) err code ++
          [if c.args = [] then Ev.errorf ("command: " ++ c.name)
           else Ev.errorf ("command: " ++ c.name ++ " " ++
             String.intercalate " " c.args),
           if input = "" then Ev.error "no input"
           else Ev.errorf ("input:\n" ++ input),
           if out = "" then Ev.error "no output"
           else Ev.errorf ("output:\n" ++ out),
           if err = "" then Ev.error "no error output"
           else Ev.errorf ("error output:\n" ++ err),
           Ev.errorf ("exit code: " ++ toString code), Ev.failNow] =
          ([Ev.helper] ++ outCheckEvs c out ++ errCheckEvs c err ++
           codeCheckEvs c (outCheckOk c out && errCheckOk c err) err code ++
           [if c.args = [] then Ev.errorf ("command: " ++ c.name)
            else Ev.errorf ("command: " ++ c.name ++ " " ++
              String.intercalate " " c.args),
            if input = "" then Ev.error "no input"
            else Ev.errorf ("input:\n" ++ input),
            if out = "" then Ev.error "no output"
            else Ev.errorf ("output:\n" ++ out),
            if err = "" then Ev.error "no error output"
            else Ev.errorf ("error output:\n" ++ err),
            Ev.errorf ("exit code: " ++ toString code)]) ++ [Ev.failNow] := by
        simp [List.append_assoc]
      rw [hsplit, List.getLast?_concat]
    · rw [hdec]
      simp [hfail, List.count_append, List.count_cons,
        count_failNow_outCheckEvs, count_failNow_errCheckEvs,
        count_failNow_codeCheckEvs, count_failNow_diagEvs]
  · intro hok
    have hok2 := hok
    simp only [allOk, Bool.and_eq_true] at hok2
    obtain ⟨⟨ho, he⟩, hk⟩ := hok2
    rw [hdec, outCheckEvs_nil c out ho, errCheckEvs_nil c err he,
      codeCheckEvs_nil c _ err code hk]
    simp [hok]

/-- Witness for cmd_run_failure_report_order: the /bin/false scenario of
TestCmdDefaults, whose exact diagnostic sequence the theorem yields, and
the /bin/true scenario where nothing is reported. -/
theorem cmd_run_failure_report_order_witness :
    allOk (Command "/bin/false" []) "" "" 1 = false ∧
    ((Command "/bin/false" []).Run "" (.exited "" "" 1)).events =
      [Ev.helper, Ev.error "non-zero exit code",
       Ev.errorf "command: /bin/false", Ev.error "no input",
       Ev.error "no output", Ev.error "no error output",
       Ev.errorf "exit code: 1", Ev.failNow] ∧
    allOk (Command "/bin/true" []) "" "" 0 = true ∧
    ((Command "/bin/true" []).Run "" (.exited "" "" 0)).events = [Ev.helper] :=
  ⟨by decide,
   ((cmd_run_failure_report_order (Command "/bin/false" []) "" "" "" 1
       (by decide)).1 (by decide)).1.trans (by decide),
   by decide,
   (cmd_run_failure_report_order (Command "/bin/true" []) "" "" "" 0
       (by decide)).2 (by decide)⟩

/-- C9: output truncation in RunCommand.  Non-empty combined output below
the 500-byte threshold is reported verbatim; output at or beyond the
threshold is rendered as the first 150 bytes, the ellipsis marker " ... ",
and the last 150 bytes — a fixed 305-byte rendering that therefore is
never the full untruncated output. -/
theorem run_command_truncation (command : String) (out : List Char)
    (e : Option String) (h : ¬ out = []) :
    (out.length < 500 → Ev.errorf (String.mk out) ∈ RunCommand command out e) ∧
    (500 ≤ out.length →
      Ev.errorf (renderLongOutput out) ∈ RunCommand command out e ∧
      renderLongOutput out =
        String.mk (out.take 150) ++ " ... " ++
          String.mk (out.drop (out.length - 150)) ∧
      (String.mk (out.take 150)).length = 150 ∧
      (String.mk (out.drop (out.length - 150))).length = 150 ∧
      (renderLongOutput out).length = 305 ∧
      renderLongOutput out ≠ String.mk out) := by
  constructor
  · intro hlt
    simp [RunCommand, h, hlt]
  · intro hge
    have hnlt : ¬ out.length < 500 := by omega
    have htake : (String.mk (out.take 150)).length = 150 := by
      have h1 : (String.mk (out.take 150)).length = (out.take 150).length := rfl
      rw [h1, List.length_take]
      omega
    have hdrop : (String.mk (out.drop (out.length - 150))).length = 150 := by
      have h1 : (String.mk (out.drop (out.length - 150))).length =
          (out.drop (out.length - 150)).length := rfl
      rw [h1, List.length_drop]
      omega
    have hlen : (renderLongOutput out).length = 305 := by
      unfold renderLongOutput
      rw [String.length_append, String.length_append, htake, hdrop]
      rfl
    refine ⟨?_, rfl, htake, hdrop, hlen, ?_⟩
    · simp [RunCommand, h, hnlt]
    · intro hcontra
      have h1 := congrArg String.length hcontra
      rw [hlen] at h1
      have h2 : (String.mk out).length = out.length := rfl
      rw [h2] at h1
      omega

/-- Witness for run_command_truncation at a 500-byte output: the truncated
rendering is reported and differs from the full output. -/
theorem run_command_truncation_witness :
    ¬ List.replicate 500 'x' = ([] : List Char) ∧
    Ev.errorf (renderLongOutput (List.replicate 500 'x')) ∈
      RunCommand "/bin/sh" (List.replicate 500 'x') none ∧
    renderLongOutput (List.replicate 500 'x') ≠
      String.mk (List.replicate 500 'x') :=
  ⟨by simp,
   ((run_command_truncation "/bin/sh" (List.replicate 500 'x') none
       (by simp)).2 (by rw [List.length_replicate])).1,
   ((run_command_truncation "/bin/sh" (List.replicate 500 'x') none
       (by simp)).2 (by rw [List.length_replicate])).2.2.2.2.2⟩
